import Mathlib

/-!
# Verification of the vizdiff-io/cli upload pipeline

Shallow embedding of the core of `vizdiff-io/cli`:

* `src/upload-storybook.ts` — input validation, manifest validation,
  packaging, HTTP submission, response interpretation and cleanup
  (`uploadStorybook`, `isValidGitCommitHash`);
* `src/bin/vizdiff.ts` — the CLI driver: token resolution
  (`getToken`), git metadata resolution (`getCommitSha`, `getBranch`,
  `getBaseCommitShaAndBranch`) and the explicit-base shortcut;
* `src/index.ts` — `checkToken`.

External collaborators (the filesystem, the `zip-a-folder` compressor,
the `undici` fetch transport, the `simple-git` query layer, Node's
`path` module) are modelled as oracle fields of environment structures;
every I/O action the code performs is recorded in an event trace so that
ordering and frame properties ("no filesystem access", "no merge-base
computation", "deleted exactly once") can be stated.  JSON values are
modelled by an inductive type mirroring the shapes `JSON.parse` can
return; JavaScript truthiness, property access and `Object.keys` are
embedded alongside it.
-/

namespace Vizdiff

/-- JSON values as produced by `JSON.parse`.  Numbers are modelled as
integers; none of the verified properties inspects a numeric value. -/
inductive Json where
  | null
  | bool (b : Bool)
  | num (n : Int)
  | str (s : String)
  | arr (xs : List Json)
  | obj (fields : List (String × Json))

/-- JavaScript truthiness of a value. -/
def jsTruthy : Json → Bool
  | .null => false
  | .bool b => b
  | .num n => n != 0
  | .str s => s != ""
  | .arr _ => true
  | .obj _ => true

/-- Property lookup on a JavaScript object literal: the last binding of
a duplicated key wins, as in `JSON.parse`. -/
def lookupLast (fields : List (String × Json)) (key : String) : Option Json :=
  ((fields.filter (fun kv => kv.1 == key)).getLast?).map (fun kv => kv.2)

/-- `v[key]` / `v?.[key]` for an arbitrary value: property access on a
non-object (including `null`, via the optional chain in the source)
yields `undefined`, modelled as `none`. -/
def jsGetOpt : Json → String → Option Json
  | .obj fields, key => lookupLast fields key
  | _, _ => none

/-- `typeof v === "object"` for a value already known to be truthy
(arrays and plain objects; `null` is excluded by the truthiness check
in the source before `typeof` runs). -/
def typeofIsObject : Json → Bool
  | .obj _ => true
  | .arr _ => true
  | .null => true
  | _ => false

/-- `Object.keys(v).length`: the number of own enumerable keys — the
deduplicated key list of an object, the index count of an array. -/
def keyCount : Json → Nat
  | .obj fields => ((fields.map (fun kv => kv.1)).eraseDups).length
  | .arr xs => xs.length
  | _ => 0

/-- Truthiness of a possibly-undefined value. -/
def jsTruthyOpt : Option Json → Bool
  | none => false
  | some v => jsTruthy v

/-- `typeof v === "string"` on a possibly-undefined value. -/
def isStringJson : Option Json → Bool
  | some (.str _) => true
  | _ => false

mutual
/-- JavaScript template stringification of a value. -/
def jsToString : Json → String
  | .null => "null"
  | .bool b => if b then "true" else "false"
  | .num n => toString n
  | .str s => s
  | .arr xs => String.intercalate "," (jsToStringArrElems xs)
  | .obj _ => "[object Object]"

/-- Array elements stringify with `null` rendered as the empty string. -/
def jsToStringArrElems : List Json → List String
  | [] => []
  | .null :: rest => "" :: jsToStringArrElems rest
  | v :: rest => jsToString v :: jsToStringArrElems rest
end

/-- One step of searching `pat` inside a character list. -/
def charsIsInfixOf (pat : List Char) : List Char → Bool
  | [] => pat.isPrefixOf ([] : List Char)
  | c :: rest => pat.isPrefixOf (c :: rest) || charsIsInfixOf pat rest

/-- `haystack.includes(pat)` on strings. -/
def strIncludes (haystack pat : String) : Bool :=
  charsIsInfixOf pat.data haystack.data

/-- JavaScript `String#replace` with a plain-string pattern replaces the
first occurrence only; helper on character lists. -/
def replaceFirstAux (pat rep : List Char) : List Char → List Char
  | [] => if pat.isPrefixOf ([] : List Char) then rep else []
  | c :: rest =>
    if pat.isPrefixOf (c :: rest) then rep ++ (c :: rest).drop pat.length
    else c :: replaceFirstAux pat rep rest

/-- `s.replace(pat, rep)` for a plain-string pattern. -/
def replaceFirst (s pat rep : String) : String :=
  ⟨replaceFirstAux pat.data rep.data s.data⟩

/-- JavaScript `String#trim`, modelled by dropping whitespace on both
ends of the character list. -/
def jsTrim (s : String) : String :=
  ⟨((s.data.dropWhile Char.isWhitespace).reverse.dropWhile Char.isWhitespace).reverse⟩

/-- Models Node's `path.resolve(dir, name)` / `path.join(dir, name)`
for a directory and a file name: the resolved path of `name` inside
`dir`. -/
def pathResolve (dir name : String) : String :=
  dir ++ "/" ++ name

/-! ## Upload client (`src/upload-storybook.ts`) -/

/-- The options record taken by `uploadStorybook`
(`UploadStorybookOpts` in the source).  Optional fields are `Option`;
`prNumber` is a JavaScript number, modelled as an integer. -/
structure UploadStorybookOpts where
  storybookDir : String
  commitSha : String
  branch : String
  projectToken : String
  baseCommitSha : Option String
  baseBranch : Option String
  prNumber : Option Int
deriving DecidableEq

/-- An error escaping `uploadStorybook`: the `Error` message and the
`statusCode` property attached on upload rejection. -/
structure UploadErr where
  message : String
  statusCode : Option Nat
deriving DecidableEq

/-- One I/O action performed by `uploadStorybook`, in program order:
`fs.access`, `fs.readFile`, the `tar` call of `zip-a-folder`, the
`fetch` POST (with its request headers), and `fs.unlink` (with whether
the filesystem performed the deletion). -/
inductive Ev where
  | fsAccess (p : String)
  | fsRead (p : String)
  | tarCreate (src dst : String)
  | fetchPost (url : String) (headers : List (String × String))
  | fsUnlink (p : String) (ok : Bool)
deriving DecidableEq

/-- The outcome of the single `fetch` exchange: either the transport
throws, or a response arrives with `ok`, `status`, `statusText`, a
`content-type` header, and a body whose JSON parse either succeeds or
fails. -/
inductive FetchOutcome where
  | throws (msg : String)
  | response (ok : Bool) (status : Nat) (statusText : String)
      (contentType : Option String) (body : Except String Json)

/-- Oracle environment for one `uploadStorybook` call: the collaborator
answers the code observes.  `projectJson`/`indexJson` are the combined
`fs.readFile` + `JSON.parse` results (`.error` = either step threw);
`tarError` is the error value returned by `tar`; `unlinkError` is the
rejection of `fs.unlink`, `none` meaning deletion succeeded;
`tmpdir`/`randHex` determine the tarball path; `apiUrl` is
`process.env.VIZDIFF_API_URL`. -/
structure UploadEnv where
  tmpdir : String
  randHex : String
  apiUrl : Option String
  projectJsonReadable : Bool
  projectJson : Except String Json
  indexJson : Except String Json
  tarError : Option String
  fetchResult : FetchOutcome
  unlinkError : Option String

/-- `Invalid commit SHA: "${commitSha}"`. -/
def invalidCommitShaMsg (sha : String) : String :=
  "Invalid commit SHA: \"" ++ sha ++ "\""

/-- `Invalid branch name: "${branch}"`. -/
def invalidBranchMsg (branch : String) : String :=
  "Invalid branch name: \"" ++ branch ++ "\""

/-- `Storybook build manifest does not exist: ${projectJsonPath}`. -/
def manifestMissingMsg (p : String) : String :=
  "Storybook build manifest does not exist: " ++ p

/-- `Failed to parse project.json file: ${error}`. -/
def projectParseFailMsg (e : String) : String :=
  "Failed to parse project.json file: " ++ e

/-- `Invalid project.json file: ${projectJsonPath}`. -/
def projectInvalidMsg (p : String) : String :=
  "Invalid project.json file: " ++ p

/-- `Failed to parse index.json file: ${error}`. -/
def indexParseFailMsg (e : String) : String :=
  "Failed to parse index.json file: " ++ e

/-- `No stories found in index.json file: ${indexJsonPath}`. -/
def noStoriesMsg (p : String) : String :=
  "No stories found in index.json file: " ++ p

/-- `Failed to tar+gzip storybook build folder: ${error}`. -/
def tarFailMsg (e : String) : String :=
  "Failed to tar+gzip storybook build folder: " ++ e

/-- `isValidGitCommitHash`: the regex `^[0-9a-f]{40}$` with the `i`
flag — exactly forty case-insensitive hex digits. -/
def isHexDigitCI (c : Char) : Bool :=
  (decide ('0' ≤ c) && decide (c ≤ '9')) ||
  (decide ('a' ≤ c) && decide (c ≤ 'f')) ||
  (decide ('A' ≤ c) && decide (c ≤ 'F'))

/-- `isValidGitCommitHash(hash)` from `src/upload-storybook.ts`. -/
def isValidGitCommitHash (hash : String) : Bool :=
  decide (hash.length = 40) && hash.data.all isHexDigitCI

/-- The story count computed from a parsed `index.json` value:
`index?.entries && typeof index.entries === "object"
  ? Object.keys(index.entries).length : 0`. -/
def countStories (index : Json) : Nat :=
  match jsGetOpt index "entries" with
  | some e => if jsTruthy e && typeofIsObject e then keyCount e else 0
  | none => 0

/-- The temporary tarball path
`path.join(os.tmpdir(), randHexString() + ".tar.gz")`. -/
def tarballPath (env : UploadEnv) : String :=
  pathResolve env.tmpdir (env.randHex ++ ".tar.gz")

/-- The request URL: `VIZDIFF_API_URL` (default
`https://vizdiff.io/api`) with trailing slashes stripped, then
`/upload/storybook?token=<projectToken>`. -/
def uploadUrl (env : UploadEnv) (opts : UploadStorybookOpts) : String :=
  ⟨((env.apiUrl.getD "https://vizdiff.io/api").data.reverse.dropWhile
      (fun c => c == '/')).reverse⟩ ++
    "/upload/storybook?token=" ++ opts.projectToken

/-- The request headers, in the order the object literal builds them:
`Content-Type`, commit SHA and branch always; each base header and the
PR header spread in independently, guarded only by the truthiness of
its own value. -/
def buildHeaders (opts : UploadStorybookOpts) : List (String × String) :=
  [("Content-Type", "application/gzip"),
   ("X-Vizdiff-Commit-Sha", opts.commitSha),
   ("X-Vizdiff-Branch", opts.branch)] ++
  (match opts.baseCommitSha with
   | some s => if s ≠ "" then [("X-Vizdiff-Base-Commit-Sha", s)] else []
   | none => []) ++
  (match opts.baseBranch with
   | some s => if s ≠ "" then [("X-Vizdiff-Base-Branch", s)] else []
   | none => []) ++
  (match opts.prNumber with
   | some n => if n ≠ 0 then [("X-Vizdiff-PR-Number", toString n)] else []
   | none => [])

/-- Lookup of a header by name in a header list. -/
def headerLookup (name : String) : List (String × String) → Option String
  | [] => none
  | (k, v) :: rest => if k == name then some v else headerLookup name rest

/-- `response.headers.get("content-type")?.includes("application/json")`. -/
def contentTypeIsJson : Option String → Bool
  | none => false
  | some ct => strIncludes ct "application/json"

/-- The message of an `UploadRejected` error (non-success HTTP status):
the generic `<statusText> (<status>)` message, replaced by the body's
string `error` field when the response declares a JSON content type and
the body parses to an object carrying one; body parse errors are
swallowed. -/
def rejectionMessage (statusText : String) (status : Nat)
    (contentType : Option String) (body : Except String Json) : String :=
  let fallback := "Failed to upload storybook build folder to vizdiff CDN: " ++
    statusText ++ " (" ++ toString status ++ ")"
  if contentTypeIsJson contentType then
    match body with
    | .ok j =>
      match jsGetOpt j "error" with
      | some (.str s) => s
      | _ => fallback
    | .error _ => fallback
  else fallback

/-- The `UploadFailed` message for an HTTP-success body with a falsy
`success` field: `res.error ?? "Unknown error"` interpolated into the
template (nullish values fall back). -/
def uploadFailedMsg (err : Option Json) : String :=
  "Failed to upload storybook build folder to vizdiff CDN: " ++
    (match err with
     | none => "Unknown error"
     | some .null => "Unknown error"
     | some v => jsToString v)

/-- Interpretation of a successfully-parsed HTTP-success body:
`res.success` falsy is a logical failure; accessing the field on a
`null` body raises a TypeError (uncaught in the source). -/
def interpretOkBody : Json → Except UploadErr Unit
  | .null => .error ⟨"TypeError: cannot read success of null", none⟩
  | j =>
    if jsTruthyOpt (jsGetOpt j "success") then .ok ()
    else .error ⟨uploadFailedMsg (jsGetOpt j "error"), none⟩

/-- Steps 4–5 of the upload client: the value produced by the `try`
block body given the fetch outcome — transport exceptions propagate;
a non-success status yields an error carrying the status code; an
HTTP-success body is parsed (a parse failure propagates) and
interpreted. -/
def interpretFetch : FetchOutcome → Except UploadErr Unit
  | .throws msg => .error ⟨msg, none⟩
  | .response ok status statusText contentType body =>
    if ok then
      match body with
      | .error e => .error ⟨e, none⟩
      | .ok j => interpretOkBody j
    else
      .error ⟨rejectionMessage statusText status contentType body, some status⟩

/-- `uploadStorybook` from `src/upload-storybook.ts`, returning the
call's outcome together with the trace of I/O actions it performed.
The `finally` block is embedded with JavaScript semantics: `fs.unlink`
always runs exactly once after the `try` body, and if it rejects, its
error replaces the result of the `try` body. -/
def uploadStorybook (opts : UploadStorybookOpts) (env : UploadEnv) :
    Except UploadErr Unit × List Ev :=
  if !(isValidGitCommitHash opts.commitSha) then
    (.error ⟨invalidCommitShaMsg opts.commitSha, none⟩, [])
  else if opts.branch = "" ∨ 255 < opts.branch.length then
    (.error ⟨invalidBranchMsg opts.branch, none⟩, [])
  else
    let projectJsonPath := pathResolve opts.storybookDir "project.json"
    let tr1 : List Ev := [.fsAccess projectJsonPath]
    if !env.projectJsonReadable then
      (.error ⟨manifestMissingMsg projectJsonPath, none⟩, tr1)
    else
      let tr2 := tr1 ++ [.fsRead projectJsonPath]
      match env.projectJson with
      | .error e => (.error ⟨projectParseFailMsg e, none⟩, tr2)
      | .ok project =>
        if jsTruthy project = false ∨
            isStringJson (jsGetOpt project "storybookVersion") = false then
          (.error ⟨projectInvalidMsg projectJsonPath, none⟩, tr2)
        else
          let indexJsonPath := pathResolve opts.storybookDir "index.json"
          let tr3 := tr2 ++ [.fsRead indexJsonPath]
          match env.indexJson with
          | .error e => (.error ⟨indexParseFailMsg e, none⟩, tr3)
          | .ok index =>
            if countStories index = 0 then
              (.error ⟨noStoriesMsg indexJsonPath, none⟩, tr3)
            else
              let tarballFilename := tarballPath env
              let tr4 := tr3 ++ [.tarCreate opts.storybookDir tarballFilename]
              match env.tarError with
              | some e => (.error ⟨tarFailMsg e, none⟩, tr4)
              | none =>
                let tryResult := interpretFetch env.fetchResult
                let tr6 := tr4 ++
                  [.fsRead tarballFilename, .fsRead tarballFilename,
                   .fetchPost (uploadUrl env opts) (buildHeaders opts),
                   .fsUnlink tarballFilename env.unlinkError.isNone]
                match env.unlinkError with
                | some m => (.error ⟨m, none⟩, tr6)
                | none => (tryResult, tr6)

/-- The trace of a call that reaches the network exchange. -/
def happyTrace (opts : UploadStorybookOpts) (env : UploadEnv) : List Ev :=
  [.fsAccess (pathResolve opts.storybookDir "project.json"),
   .fsRead (pathResolve opts.storybookDir "project.json"),
   .fsRead (pathResolve opts.storybookDir "index.json"),
   .tarCreate opts.storybookDir (tarballPath env),
   .fsRead (tarballPath env), .fsRead (tarballPath env),
   .fetchPost (uploadUrl env opts) (buildHeaders opts),
   .fsUnlink (tarballPath env) env.unlinkError.isNone]

/-- Event classifiers over the trace. -/
def Ev.isUnlink : Ev → Bool
  | .fsUnlink _ _ => true
  | _ => false

/-- Whether an event is an unlink of the given path. -/
def Ev.isUnlinkOf (p : String) : Ev → Bool
  | .fsUnlink q _ => q == p
  | _ => false

/-- Whether an event is a tarball creation. -/
def Ev.isTarCreate : Ev → Bool
  | .tarCreate _ _ => true
  | _ => false

/-- Replay of a trace against an initially-absent file: does the file
at path `p` exist after the recorded actions ran? -/
def existsAfter (tr : List Ev) (p : String) : Bool :=
  tr.foldl (fun acc e =>
    match e with
    | .tarCreate _ dst => if dst == p then true else acc
    | .fsUnlink q ok => if q == p && ok then false else acc
    | _ => acc) false

/-! ## CLI driver (`src/bin/vizdiff.ts` and `src/index.ts`) -/

/-- One version-control query issued through `simple-git`, plus a
marker event recording that `getBaseCommitShaAndBranch` was entered at
all. -/
inductive GEv where
  | logQuery
  | statusQuery
  | remotesQuery
  | revparseHeadQuery (remote : String)
  | revparseParentQuery (commitSha : String)
  | mergeBaseQuery (b1 b2 : String)
  | getBaseCall
deriving DecidableEq

/-- Whether an event is a merge-base computation. -/
def GEv.isMergeBase : GEv → Bool
  | .mergeBaseQuery _ _ => true
  | _ => false

/-- Oracle environment for the git collaborator: `findGitRoot` models
the upward `.git` directory walk; `logLatest` the hash of
`git.log().latest`; `statusCurrent` the current branch of
`git.status()`; `remotes` the configured remote names;
`originHead` the output of `rev-parse --abbrev-ref origin/HEAD`;
`revparseParent sha` the output of `rev-parse "<sha>~1"` (the
immediate parent of `sha`, one step back in history); `mergeBase b1 b2`
the output of `merge-base b1 b2` — `.error` models the git call
throwing. -/
structure GitEnv where
  findGitRoot : String → Option String
  logLatest : Option String
  statusCurrent : Option String
  remotes : List String
  originHead : String
  revparseParent : String → Except String String
  mergeBase : String → String → Except String String

/-- `Failed to find merge base between "${branch}" and
"${actualBaseBranch}": ${err}`. -/
def mergeBaseFailMsg (branch ab err : String) : String :=
  "Failed to find merge base between \"" ++ branch ++ "\" and \"" ++
    ab ++ "\": " ++ err

/-- The resolved base branch: an explicitly supplied non-empty
`baseBranch` wins, otherwise the remote default with the first
`origin/` stripped (`defaultBranch.replace("origin/", "")`). -/
def actualBase (env : GitEnv) (baseBranch : Option String) : String :=
  match baseBranch with
  | some b => if b ≠ "" then b else replaceFirst env.originHead "origin/" ""
  | none => replaceFirst env.originHead "origin/" ""

/-- `getBaseCommitShaAndBranch` from `src/bin/vizdiff.ts`, returning
the resolved `[baseCommitSha, baseBranch]` pair (or a thrown error)
together with the version-control queries issued. -/
def getBaseCommitShaAndBranch (env : GitEnv) (storybookDir commitSha branch : String)
    (baseBranch : Option String) :
    Except String (Option String × Option String) × List GEv :=
  match env.findGitRoot storybookDir with
  | none => (.ok (none, none), [.getBaseCall])
  | some _ =>
    match env.logLatest with
    | none => (.ok (none, none), [.getBaseCall, .logQuery])
    | some _ =>
      if !(env.remotes.contains "origin") then
        (.ok (none, none), [.getBaseCall, .logQuery, .remotesQuery])
      else
        let ab := actualBase env baseBranch
        let tr := [GEv.getBaseCall, .logQuery, .remotesQuery, .revparseHeadQuery "origin"]
        if branch = ab then
          match env.revparseParent commitSha with
          | .ok p => (.ok (some p, some ab), tr ++ [.revparseParentQuery commitSha])
          | .error e => (.error e, tr ++ [.revparseParentQuery commitSha])
        else
          match env.mergeBase branch ab with
          | .ok m => (.ok (some (jsTrim m), some ab), tr ++ [.mergeBaseQuery branch ab])
          | .error e =>
            (.error (mergeBaseFailMsg branch ab e), tr ++ [.mergeBaseQuery branch ab])

/-- The git-log fallback of `getCommitSha`. -/
def getCommitShaFromGit (git : GitEnv) (storybookDir : String) :
    Except String String × List GEv :=
  match git.findGitRoot storybookDir with
  | none => (.error "Could not find a git repository for the storybook directory.", [])
  | some _ =>
    match git.logLatest with
    | none => (.error "Could not find the latest commit in the git log", [.logQuery])
    | some h => (.ok h, [.logQuery])

/-- `getCommitSha`: a truthy explicit `--commit` value is returned
verbatim, otherwise the latest commit of the discovered repository. -/
def getCommitSha (git : GitEnv) (storybookDir : String) (optCommit : Option String) :
    Except String String × List GEv :=
  match optCommit with
  | some c => if c ≠ "" then (.ok c, []) else getCommitShaFromGit git storybookDir
  | none => getCommitShaFromGit git storybookDir

/-- The git-status fallback of `getBranch`. -/
def getBranchFromGit (git : GitEnv) (storybookDir : String) :
    Except String String × List GEv :=
  match git.findGitRoot storybookDir with
  | none => (.error "Could not find a git repository for the storybook directory.", [])
  | some _ =>
    match git.statusCurrent with
    | none => (.error "Could not find the current branch in the git status", [.statusQuery])
    | some b => (.ok b, [.statusQuery])

/-- `getBranch`: a truthy explicit `--branch` value is returned
verbatim, otherwise the currently checked-out branch. -/
def getBranch (git : GitEnv) (storybookDir : String) (optBranch : Option String) :
    Except String String × List GEv :=
  match optBranch with
  | some b => if b ≠ "" then (.ok b, []) else getBranchFromGit git storybookDir
  | none => getBranchFromGit git storybookDir

/-- JavaScript truthiness of an optional string option. -/
def jsTruthyStr : Option String → Bool
  | none => false
  | some s => s != ""

/-- The base-pair selection of `vizdiff` (lines 54–57 of
`src/bin/vizdiff.ts`): `options.baseCommit && options.baseBranch`
short-circuits resolution, otherwise `getBaseCommitShaAndBranch`
runs. -/
def resolveBasePair (git : GitEnv) (storybookDir commitSha branch : String)
    (optBaseCommit optBaseBranch : Option String) :
    Except String (Option String × Option String) × List GEv :=
  if jsTruthyStr optBaseCommit && jsTruthyStr optBaseBranch then
    (.ok (optBaseCommit, optBaseBranch), [])
  else
    getBaseCommitShaAndBranch git storybookDir commitSha branch optBaseBranch

/-- `getPrNumber` on the numeric interpretation of the `--pr` flag:
`none` models an absent flag, a falsy flag value or a `parseInt`
result of `NaN`; a parsed number below 1 is discarded. -/
def getPrNumber (pr : Option Int) : Option Int :=
  match pr with
  | none => none
  | some n => if n < 1 then none else some n

/-- `checkToken` from `src/index.ts`: the regex `^[0-9a-f]{12,24}$`
(no `i` flag) — 12 to 24 lowercase hex characters. -/
def isLowerHexDigit (c : Char) : Bool :=
  (decide ('0' ≤ c) && decide (c ≤ '9')) ||
  (decide ('a' ≤ c) && decide (c ≤ 'f'))

/-- `checkToken(token)` from `src/index.ts`. -/
def checkToken (token : String) : Bool :=
  decide (12 ≤ token.length) && decide (token.length ≤ 24) &&
    token.data.all isLowerHexDigit

/-- Environment defaults consulted by `getToken`:
`VIZDIFF_PROJECT_TOKEN` and `VIZDIFF_TOKEN`. -/
structure CliEnv where
  envProjectToken : Option String
  envToken : Option String

/-- The fatal message for an absent (or empty) token. -/
def missingTokenMsg : String :=
  "Missing project token. Please set the VIZDIFF_PROJECT_TOKEN environment variable or use the --token option."

/-- The fatal message for a token rejected by `checkToken` (also used
for an HTTP 401 rejection). -/
def invalidTokenMsg : String :=
  "Invalid project token. Please check that the token is correct."

/-- `getToken` from `src/bin/vizdiff.ts`: the `--token` option, else
the environment defaults (`??` is nullish, so an empty string passes
through); a falsy result is fatal as missing, a `checkToken` reject is
fatal as invalid. -/
def getToken (optToken : Option String) (cli : CliEnv) : Except String String :=
  let token :=
    match optToken with
    | some t => some t
    | none =>
      match cli.envProjectToken with
      | some t => some t
      | none => cli.envToken
  match token with
  | none => .error missingTokenMsg
  | some t =>
    if t = "" then .error missingTokenMsg
    else if !(checkToken t) then .error invalidTokenMsg
    else .ok t

/-- The `catch` clause of `vizdiff` translating an `uploadStorybook`
error into the fatal message reported to the user. -/
def translateUploadError (e : UploadErr) : String :=
  if e.statusCode = some 401 then invalidTokenMsg
  else if e.statusCode = some 402 then e.message
  else if e.message = "fetch failed" then "Storybook upload failed"
  else "Storybook upload failed: " ++ e.message

/-- The parsed command-line options of the `upload` command.  `pr` is
the numeric interpretation of the flag (see `getPrNumber`). -/
structure VizdiffOptions where
  token : Option String
  commit : Option String
  branch : Option String
  baseBranch : Option String
  baseCommit : Option String
  pr : Option Int

/-- An event of the whole CLI run: a version-control query, the call
into `uploadStorybook`, or one of its I/O actions. -/
inductive VEv where
  | git (e : GEv)
  | uploadCall
  | upload (e : Ev)
deriving DecidableEq

/-- The `vizdiff` driver from `src/bin/vizdiff.ts`: token resolution,
commit/branch/base resolution, the `uploadStorybook` call, and the
error translation of its `catch` clause.  A fatal stop is modelled as
`.error` with the fatal message; the trace records every
version-control query and upload action in order. -/
def vizdiffRun (storybookDir : String) (options : VizdiffOptions)
    (cli : CliEnv) (git : GitEnv) (uenv : UploadEnv) :
    Except String Unit × List VEv :=
  match getToken options.token cli with
  | .error m => (.error m, [])
  | .ok projectToken =>
    match getCommitSha git storybookDir options.commit with
    | (.error m, tr1) => (.error m, tr1.map VEv.git)
    | (.ok commitSha, tr1) =>
      match getBranch git storybookDir options.branch with
      | (.error m, tr2) => (.error m, (tr1 ++ tr2).map VEv.git)
      | (.ok branch, tr2) =>
        match resolveBasePair git storybookDir commitSha branch
            options.baseCommit options.baseBranch with
        | (.error m, tr3) => (.error m, (tr1 ++ tr2 ++ tr3).map VEv.git)
        | (.ok (baseCommitSha, baseBranch), tr3) =>
          let prNumber := getPrNumber options.pr
          let (r, utr) := uploadStorybook
            ⟨storybookDir, commitSha, branch, projectToken,
             baseCommitSha, baseBranch, prNumber⟩ uenv
          let evs := (tr1 ++ tr2 ++ tr3).map VEv.git ++
            [VEv.uploadCall] ++ utr.map VEv.upload
          match r with
          | .ok _ => (.ok (), evs)
          | .error e => (.error (translateUploadError e), evs)

/-! ## Concrete fixtures used by witnesses and counterexamples -/

/-- A forty-character commit SHA. -/
def sha40a : String := "aaaaaaaaaaaaaaaaaaaaaaaaaaaaaaaaaaaaaaaa"

/-- Another forty-character commit SHA. -/
def sha40b : String := "bbbbbbbbbbbbbbbbbbbbbbbbbbbbbbbbbbbbbbbb"

/-- A fully valid `uploadStorybook` options record. -/
def optsW : UploadStorybookOpts :=
  { storybookDir := "/path/to/storybook", commitSha := sha40a,
    branch := "main", projectToken := "abcdef012345",
    baseCommitSha := some sha40b, baseBranch := some "develop",
    prNumber := none }

/-- The same options with only the base commit supplied. -/
def optsBaseCommitOnly : UploadStorybookOpts :=
  { optsW with baseBranch := none }

/-- An environment in which every collaborator succeeds: the manifest
is readable and valid, the index holds two stories, packaging works,
the service accepts the upload, and the tarball deletion succeeds. -/
def envOkW : UploadEnv :=
  { tmpdir := "/tmp", randHex := "0123abcd", apiUrl := none,
    projectJsonReadable := true,
    projectJson := .ok (.obj [("storybookVersion", .str "7.0.0")]),
    indexJson := .ok (.obj [("entries",
      .obj [("story-1", .null), ("story-2", .null)])]),
    tarError := none,
    fetchResult := .response true 200 "OK" (some "application/json")
      (.ok (.obj [("success", .bool true), ("testId", .str "t1")])),
    unlinkError := none }

/-- A healthy git repository fixture: a root is found, `origin` exists
and its default branch is `origin/main`. -/
def gitEnvW : GitEnv :=
  { findGitRoot := fun _ => some "/repo",
    logLatest := some sha40a,
    statusCurrent := some "feature-x",
    remotes := ["origin"],
    originHead := "origin/main",
    revparseParent := fun _ => .ok sha40b,
    mergeBase := fun _ _ => .ok sha40b }

/-- The same repository with an unrelated-histories failure: the
merge-base computation throws. -/
def gitEnvMB : GitEnv :=
  { gitEnvW with mergeBase := fun _ _ => .error "fatal: no merge base" }

/-- An environment whose `index.json` parses but has no `entries`
field. -/
def envNoEntriesW : UploadEnv :=
  { envOkW with indexJson := .ok (.obj [("v", .num 5)]) }

/-- The CLI `upload` options supplying a token `checkToken` rejects
(uppercase hex). -/
def optsBadTokenW : VizdiffOptions :=
  { token := some "ABCDEF012345", commit := none, branch := none,
    baseBranch := none, baseCommit := none, pr := none }

/-- An empty process environment for `getToken`. -/
def cliW : CliEnv := { envProjectToken := none, envToken := none }

/-! ## Helper lemmas -/

/-- A call satisfying every precondition up to packaging evaluates to
the `finally`-wrapped fetch interpretation and the full happy-path
trace, whatever the fetch outcome and the unlink result. -/
theorem uploadStorybook_happy (opts : UploadStorybookOpts) (env : UploadEnv)
    (hsha : isValidGitCommitHash opts.commitSha = true)
    (hb1 : opts.branch ≠ "") (hb2 : opts.branch.length ≤ 255)
    (hacc : env.projectJsonReadable = true)
    (pj : Json) (hpj : env.projectJson = .ok pj)
    (hpt : jsTruthy pj = true)
    (hpv : isStringJson (jsGetOpt pj "storybookVersion") = true)
    (ix : Json) (hix : env.indexJson = .ok ix) (hcount : countStories ix ≠ 0)
    (htar : env.tarError = none) :
    uploadStorybook opts env =
      ((match env.unlinkError with
        | some m => .error ⟨m, none⟩
        | none => interpretFetch env.fetchResult), happyTrace opts env) := by
  have hb2' : ¬ 255 < opts.branch.length := Nat.not_lt.mpr hb2
  cases hun : env.unlinkError <;>
    simp [uploadStorybook, happyTrace, hsha, hb1, hb2', hacc, hpj, hpt, hpv,
      hix, hcount, htar, hun]

/-- `countStories` is nonzero exactly when `entries` is present,
truthy, object-typed and owns at least one key. -/
theorem countStories_ne_zero_iff (ix : Json) :
    countStories ix ≠ 0 ↔
      ∃ e, jsGetOpt ix "entries" = some e ∧ jsTruthy e = true ∧
        typeofIsObject e = true ∧ 0 < keyCount e := by
  unfold countStories
  rcases h : jsGetOpt ix "entries" with _ | e
  · simp
  · cases ht : jsTruthy e <;> cases hto : typeofIsObject e <;>
      simp [ht, hto, Nat.pos_iff_ne_zero]

/-- Header lookup distributes over list append. -/
theorem headerLookup_append (name : String) (l1 l2 : List (String × String)) :
    headerLookup name (l1 ++ l2) =
      match headerLookup name l1 with
      | some v => some v
      | none => headerLookup name l2 := by
  induction l1 with
  | nil => simp [headerLookup]
  | cons kv rest ih =>
    rcases kv with ⟨k, v⟩
    by_cases h : (k == name) = true <;> simp [headerLookup, h, ih]

/-- The four metadata headers of `buildHeaders`: commit SHA and branch
are always present; each base header is present exactly when its own
value is truthy, independently of the other. -/
theorem buildHeaders_key_lookups (opts : UploadStorybookOpts) :
    headerLookup "X-Vizdiff-Commit-Sha" (buildHeaders opts) = some opts.commitSha ∧
    headerLookup "X-Vizdiff-Branch" (buildHeaders opts) = some opts.branch ∧
    headerLookup "X-Vizdiff-Base-Commit-Sha" (buildHeaders opts) =
      (match opts.baseCommitSha with
       | some s => if s ≠ "" then some s else none
       | none => none) ∧
    headerLookup "X-Vizdiff-Base-Branch" (buildHeaders opts) =
      (match opts.baseBranch with
       | some s => if s ≠ "" then some s else none
       | none => none) := by
  rcases opts with ⟨sd, cs, br, pt, bc, bb, pr⟩
  refine ⟨?_, ?_, ?_, ?_⟩ <;>
    rcases bc with _ | s <;> rcases bb with _ | t <;> rcases pr with _ | n <;>
      (simp only [buildHeaders, headerLookup_append]
       first
         | (split_ifs <;> simp_all [headerLookup])
         | simp_all [headerLookup])

/-! ## Claims -/

/-- **C1** — whenever the tarball is successfully created (validation,
manifest checks and packaging all passed) and the filesystem performs
the deletion, the trace of `uploadStorybook` contains exactly one
unlink, it targets the tarball path, and replaying the trace shows the
archive file absent afterwards.  The fetch outcome is universally
quantified, so all four outcome classes — success, transport
exception, non-success status, and HTTP success reporting
`success:false` — are covered at once. -/
theorem c1_tarball_deleted_exactly_once (opts : UploadStorybookOpts) (env : UploadEnv)
    (hsha : isValidGitCommitHash opts.commitSha = true)
    (hb1 : opts.branch ≠ "") (hb2 : opts.branch.length ≤ 255)
    (hacc : env.projectJsonReadable = true)
    (pj : Json) (hpj : env.projectJson = .ok pj)
    (hpt : jsTruthy pj = true)
    (hpv : isStringJson (jsGetOpt pj "storybookVersion") = true)
    (ix : Json) (hix : env.indexJson = .ok ix) (hcount : countStories ix ≠ 0)
    (htar : env.tarError = none) (hun : env.unlinkError = none) :
    (uploadStorybook opts env).2.countP (Ev.isUnlinkOf (tarballPath env)) = 1 ∧
    (uploadStorybook opts env).2.countP Ev.isUnlink = 1 ∧
    existsAfter (uploadStorybook opts env).2 (tarballPath env) = false := by
  rw [uploadStorybook_happy opts env hsha hb1 hb2 hacc pj hpj hpt hpv ix hix hcount htar]
  simp [happyTrace, existsAfter, Ev.isUnlink, Ev.isUnlinkOf, hun, List.countP_cons]

/-- Witness for C1 at a concrete fully-successful run. -/
theorem c1_tarball_deleted_exactly_once_witness :
    (uploadStorybook optsW envOkW).2.countP (Ev.isUnlinkOf (tarballPath envOkW)) = 1 ∧
    (uploadStorybook optsW envOkW).2.countP Ev.isUnlink = 1 ∧
    existsAfter (uploadStorybook optsW envOkW).2 (tarballPath envOkW) = false :=
  c1_tarball_deleted_exactly_once optsW envOkW rfl (by decide) (by decide) rfl
    _ rfl rfl rfl _ rfl (by decide) rfl rfl

/-- **C2 counterexample** — two environments identical except that
`fs.unlink` rejects in the second: the successful outcome of the first
run is replaced by the unlink error in the second, so an unlink
failure does change the overall result. -/
theorem c2_counterexample :
    (uploadStorybook optsW envOkW).1 = .ok () ∧
    (uploadStorybook optsW
        { envOkW with unlinkError := some "EPERM: unlink failed" }).1 =
      .error ⟨"EPERM: unlink failed", none⟩ :=
  ⟨rfl, rfl⟩

/-- **C2 (amended)** — when the tarball was created and `fs.unlink`
rejects, the unlink error *replaces* the overall outcome of
`uploadStorybook` (JavaScript `finally` semantics: an `await` that
throws inside `finally` supersedes the `try` result), whatever the
network exchange did. -/
theorem c2_unlink_failure_escalates (opts : UploadStorybookOpts) (env : UploadEnv)
    (hsha : isValidGitCommitHash opts.commitSha = true)
    (hb1 : opts.branch ≠ "") (hb2 : opts.branch.length ≤ 255)
    (hacc : env.projectJsonReadable = true)
    (pj : Json) (hpj : env.projectJson = .ok pj)
    (hpt : jsTruthy pj = true)
    (hpv : isStringJson (jsGetOpt pj "storybookVersion") = true)
    (ix : Json) (hix : env.indexJson = .ok ix) (hcount : countStories ix ≠ 0)
    (htar : env.tarError = none)
    (m : String) (hun : env.unlinkError = some m) :
    (uploadStorybook opts env).1 = .error ⟨m, none⟩ := by
  rw [uploadStorybook_happy opts env hsha hb1 hb2 hacc pj hpj hpt hpv ix hix hcount htar]
  simp [hun]

/-- Witness for the amended C2. -/
theorem c2_unlink_failure_escalates_witness :
    (uploadStorybook optsW
        { envOkW with unlinkError := some "EPERM: unlink failed" }).1 =
      .error ⟨"EPERM: unlink failed", none⟩ :=
  c2_unlink_failure_escalates optsW
    { envOkW with unlinkError := some "EPERM: unlink failed" } rfl (by decide)
    (by decide) rfl _ rfl rfl rfl _ rfl (by decide) rfl "EPERM: unlink failed" rfl

/-- **C3 counterexample** — with `baseCommitSha` supplied and
`baseBranch` absent, the submitted request still carries
`X-Vizdiff-Base-Commit-Sha` (and no `X-Vizdiff-Base-Branch`),
contradicting "if either of the pair is absent or empty, neither base
header is sent". -/
theorem c3_counterexample :
    optsBaseCommitOnly.baseBranch = none ∧
    headerLookup "X-Vizdiff-Base-Commit-Sha" (buildHeaders optsBaseCommitOnly) =
      some sha40b ∧
    headerLookup "X-Vizdiff-Base-Branch" (buildHeaders optsBaseCommitOnly) = none ∧
    (uploadStorybook optsBaseCommitOnly envOkW).2.contains
      (Ev.fetchPost (uploadUrl envOkW optsBaseCommitOnly)
        (buildHeaders optsBaseCommitOnly)) = true :=
  ⟨rfl, rfl, rfl, rfl⟩

/-- **C3 (amended)** — for every request submitted by
`uploadStorybook`, commit SHA and branch headers are always present,
and each base header is present exactly when its *own* value is
non-empty: the two base headers are attached independently, not as a
pair. -/
theorem c3_base_headers_independent (opts : UploadStorybookOpts) (env : UploadEnv)
    (hsha : isValidGitCommitHash opts.commitSha = true)
    (hb1 : opts.branch ≠ "") (hb2 : opts.branch.length ≤ 255)
    (hacc : env.projectJsonReadable = true)
    (pj : Json) (hpj : env.projectJson = .ok pj)
    (hpt : jsTruthy pj = true)
    (hpv : isStringJson (jsGetOpt pj "storybookVersion") = true)
    (ix : Json) (hix : env.indexJson = .ok ix) (hcount : countStories ix ≠ 0)
    (htar : env.tarError = none) :
    Ev.fetchPost (uploadUrl env opts) (buildHeaders opts) ∈
      (uploadStorybook opts env).2 ∧
    headerLookup "X-Vizdiff-Commit-Sha" (buildHeaders opts) = some opts.commitSha ∧
    headerLookup "X-Vizdiff-Branch" (buildHeaders opts) = some opts.branch ∧
    headerLookup "X-Vizdiff-Base-Commit-Sha" (buildHeaders opts) =
      (match opts.baseCommitSha with
       | some s => if s ≠ "" then some s else none
       | none => none) ∧
    headerLookup "X-Vizdiff-Base-Branch" (buildHeaders opts) =
      (match opts.baseBranch with
       | some s => if s ≠ "" then some s else none
       | none => none) := by
  have hb := buildHeaders_key_lookups opts
  refine ⟨?_, hb.1, hb.2.1, hb.2.2.1, hb.2.2.2⟩
  rw [uploadStorybook_happy opts env hsha hb1 hb2 hacc pj hpj hpt hpv ix hix hcount htar]
  simp [happyTrace]

/-- Witness for the amended C3. -/
theorem c3_base_headers_independent_witness :
    Ev.fetchPost (uploadUrl envOkW optsW) (buildHeaders optsW) ∈
      (uploadStorybook optsW envOkW).2 ∧
    headerLookup "X-Vizdiff-Commit-Sha" (buildHeaders optsW) = some optsW.commitSha ∧
    headerLookup "X-Vizdiff-Branch" (buildHeaders optsW) = some optsW.branch ∧
    headerLookup "X-Vizdiff-Base-Commit-Sha" (buildHeaders optsW) =
      (match optsW.baseCommitSha with
       | some s => if s ≠ "" then some s else none
       | none => none) ∧
    headerLookup "X-Vizdiff-Base-Branch" (buildHeaders optsW) =
      (match optsW.baseBranch with
       | some s => if s ≠ "" then some s else none
       | none => none) :=
  c3_base_headers_independent optsW envOkW rfl (by decide) (by decide) rfl
    _ rfl rfl rfl _ rfl (by decide) rfl

/-- **C4** — for every commit SHA rejected by the (case-insensitive,
forty-hex-digit) validator, `uploadStorybook` returns the
invalid-commit-SHA error, whose message embeds the offending literal
value, with an *empty* I/O trace: the failure precedes any filesystem
access. -/
theorem c4_invalid_commit_sha (opts : UploadStorybookOpts) (env : UploadEnv)
    (h : isValidGitCommitHash opts.commitSha = false) :
    uploadStorybook opts env =
      (.error ⟨invalidCommitShaMsg opts.commitSha, none⟩, []) ∧
    ∃ pre suf, invalidCommitShaMsg opts.commitSha =
      pre ++ opts.commitSha ++ suf := by
  refine ⟨by simp [uploadStorybook, h], "Invalid commit SHA: \"", "\"", rfl⟩

/-- Witness for C4 at a concrete malformed SHA. -/
theorem c4_invalid_commit_sha_witness :
    uploadStorybook { optsW with commitSha := "not-a-sha" } envOkW =
      (.error ⟨invalidCommitShaMsg "not-a-sha", none⟩, []) ∧
    ∃ pre suf, invalidCommitShaMsg "not-a-sha" = pre ++ "not-a-sha" ++ suf :=
  c4_invalid_commit_sha { optsW with commitSha := "not-a-sha" } envOkW (by decide)

/-- **C7** — when `project.json` is absent or unreadable (and the
input validation that precedes the check passes), `uploadStorybook`
fails with the manifest-missing error, whose message contains the
resolved `project.json` path, and its trace contains no tarball
creation: packaging is never attempted. -/
theorem c7_manifest_missing (opts : UploadStorybookOpts) (env : UploadEnv)
    (hsha : isValidGitCommitHash opts.commitSha = true)
    (hb1 : opts.branch ≠ "") (hb2 : opts.branch.length ≤ 255)
    (hacc : env.projectJsonReadable = false) :
    (uploadStorybook opts env).1 =
      .error ⟨manifestMissingMsg (pathResolve opts.storybookDir "project.json"),
        none⟩ ∧
    (∃ pre, manifestMissingMsg (pathResolve opts.storybookDir "project.json") =
      pre ++ pathResolve opts.storybookDir "project.json") ∧
    (uploadStorybook opts env).2.countP Ev.isTarCreate = 0 := by
  have hb2' : ¬ 255 < opts.branch.length := Nat.not_lt.mpr hb2
  refine ⟨?_, ⟨"Storybook build manifest does not exist: ", rfl⟩, ?_⟩ <;>
    simp [uploadStorybook, hsha, hb1, hb2', hacc, Ev.isTarCreate, List.countP_cons]

/-- Witness for C7 at a concrete unreadable manifest. -/
theorem c7_manifest_missing_witness :
    (uploadStorybook optsW { envOkW with projectJsonReadable := false }).1 =
      .error ⟨manifestMissingMsg (pathResolve optsW.storybookDir "project.json"),
        none⟩ ∧
    (∃ pre, manifestMissingMsg (pathResolve optsW.storybookDir "project.json") =
      pre ++ pathResolve optsW.storybookDir "project.json") ∧
    (uploadStorybook optsW
      { envOkW with projectJsonReadable := false }).2.countP Ev.isTarCreate = 0 :=
  c7_manifest_missing optsW { envOkW with projectJsonReadable := false } rfl
    (by decide) (by decide) rfl

/-- **C8** — for an `index.json` that parses successfully, a missing
`entries` field or an empty `entries` object yields the no-stories
error naming the `index.json` path, and the call proceeds past the
check (a tarball creation appears in the trace) exactly when the
`entries` value is a truthy, object-typed value owning at least one
key. -/
theorem c8_no_stories (opts : UploadStorybookOpts) (env : UploadEnv)
    (hsha : isValidGitCommitHash opts.commitSha = true)
    (hb1 : opts.branch ≠ "") (hb2 : opts.branch.length ≤ 255)
    (hacc : env.projectJsonReadable = true)
    (pj : Json) (hpj : env.projectJson = .ok pj)
    (hpt : jsTruthy pj = true)
    (hpv : isStringJson (jsGetOpt pj "storybookVersion") = true)
    (ix : Json) (hix : env.indexJson = .ok ix) :
    ((jsGetOpt ix "entries" = none ∨ jsGetOpt ix "entries" = some (Json.obj [])) →
      (uploadStorybook opts env).1 =
        .error ⟨noStoriesMsg (pathResolve opts.storybookDir "index.json"), none⟩ ∧
      ∃ pre, noStoriesMsg (pathResolve opts.storybookDir "index.json") =
        pre ++ pathResolve opts.storybookDir "index.json") ∧
    ((uploadStorybook opts env).2.countP Ev.isTarCreate ≠ 0 ↔
      ∃ e, jsGetOpt ix "entries" = some e ∧ jsTruthy e = true ∧
        typeofIsObject e = true ∧ 0 < keyCount e) := by
  have hb2' : ¬ 255 < opts.branch.length := Nat.not_lt.mpr hb2
  have hiff := countStories_ne_zero_iff ix
  by_cases hzero : countStories ix = 0
  · have hres : (uploadStorybook opts env).1 =
        .error ⟨noStoriesMsg (pathResolve opts.storybookDir "index.json"), none⟩ ∧
        (uploadStorybook opts env).2.countP Ev.isTarCreate = 0 := by
      constructor <;>
        simp [uploadStorybook, hsha, hb1, hb2', hacc, hpj, hpt, hpv, hix,
          hzero, Ev.isTarCreate, List.countP_cons]
    refine ⟨fun _ => ⟨hres.1, "No stories found in index.json file: ", rfl⟩, ?_⟩
    exact iff_of_false (by simp [hres.2]) (fun h => (hiff.mpr h) hzero)
  · constructor
    · intro hmem
      exfalso
      apply hzero
      rcases hmem with h | h
      · simp [countStories, h]
      · simp [countStories, h, keyCount, jsTruthy, typeofIsObject]
        rfl
    · refine iff_of_true ?_ (hiff.mp hzero)
      rcases htE : env.tarError with _ | te <;>
        rcases hunE : env.unlinkError with _ | m <;>
        simp [uploadStorybook, hsha, hb1, hb2', hacc, hpj, hpt, hpv, hix,
          hzero, htE, hunE, Ev.isTarCreate, List.countP_cons]

/-- Witness for C8 at a concrete index with no `entries` field. -/
theorem c8_no_stories_witness :
    (uploadStorybook optsW envNoEntriesW).1 =
      .error ⟨noStoriesMsg (pathResolve optsW.storybookDir "index.json"), none⟩ ∧
    (uploadStorybook optsW envOkW).2.countP Ev.isTarCreate ≠ 0 := by
  have h1 := c8_no_stories optsW envNoEntriesW rfl (by decide) (by decide) rfl
    _ rfl rfl rfl _ rfl
  have h2 := c8_no_stories optsW envOkW rfl (by decide) (by decide) rfl
    _ rfl rfl rfl _ rfl
  refine ⟨(h1.1 (Or.inl rfl)).1, h2.2.mpr ?_⟩
  exact ⟨.obj [("story-1", .null), ("story-2", .null)], rfl, rfl, rfl, by decide⟩

/-- **C5** — whenever base resolution actually runs (a repository
root, a latest commit and an `origin` remote all exist) and the
current branch equals the resolved base branch, the base commit is the
output of `rev-parse "<commit>~1"` — the immediate parent, one step
back in history — and the query trace contains no merge-base
computation. -/
theorem c5_same_branch_uses_parent (git : GitEnv) (sdir commitSha branch : String)
    (baseBranch : Option String) (root : String)
    (hroot : git.findGitRoot sdir = some root)
    (latest : String) (hlog : git.logLatest = some latest)
    (hrem : git.remotes.contains "origin" = true)
    (hbr : branch = actualBase git baseBranch) :
    (getBaseCommitShaAndBranch git sdir commitSha branch baseBranch).1 =
      (git.revparseParent commitSha).map
        (fun p => (some p, some (actualBase git baseBranch))) ∧
    ((getBaseCommitShaAndBranch git sdir commitSha branch baseBranch).2.all
      (fun e => !(GEv.isMergeBase e))) = true := by
  have hrem' : "origin" ∈ git.remotes := by simpa using hrem
  rcases hpar : git.revparseParent commitSha with e | p <;>
    simp [getBaseCommitShaAndBranch, hroot, hlog, hrem', hbr, hpar,
      Except.map, GEv.isMergeBase]

/-- Witness for C5: on the trunk branch the base commit is the parent
of the current commit and no merge base is computed. -/
theorem c5_same_branch_uses_parent_witness :
    (getBaseCommitShaAndBranch gitEnvW "/sb" sha40a "main" none).1 =
      .ok (some sha40b, some "main") ∧
    ((getBaseCommitShaAndBranch gitEnvW "/sb" sha40a "main" none).2.all
      (fun e => !(GEv.isMergeBase e))) = true := by
  have h := c5_same_branch_uses_parent gitEnvW "/sb" sha40a "main" none "/repo" rfl
    sha40a rfl rfl (by decide)
  exact ⟨h.1.trans rfl, h.2⟩

/-- **C6** — whenever base resolution runs and the current branch
differs from the resolved base branch: a failing merge-base
computation makes the whole resolution fail with the
merge-base-not-found error, whose message names both branches; a
successful one makes the (trimmed) common ancestor the base commit. -/
theorem c6_merge_base_outcomes (git : GitEnv) (sdir commitSha branch : String)
    (baseBranch : Option String) (root : String)
    (hroot : git.findGitRoot sdir = some root)
    (latest : String) (hlog : git.logLatest = some latest)
    (hrem : git.remotes.contains "origin" = true)
    (hne : branch ≠ actualBase git baseBranch) :
    (∀ e, git.mergeBase branch (actualBase git baseBranch) = .error e →
      (getBaseCommitShaAndBranch git sdir commitSha branch baseBranch).1 =
        .error (mergeBaseFailMsg branch (actualBase git baseBranch) e) ∧
      ∃ pre mid suf, mergeBaseFailMsg branch (actualBase git baseBranch) e =
        pre ++ branch ++ mid ++ actualBase git baseBranch ++ suf) ∧
    (∀ m, git.mergeBase branch (actualBase git baseBranch) = .ok m →
      (getBaseCommitShaAndBranch git sdir commitSha branch baseBranch).1 =
        .ok (some (jsTrim m), some (actualBase git baseBranch))) := by
  have hrem' : "origin" ∈ git.remotes := by simpa using hrem
  constructor
  · intro e he
    refine ⟨by simp [getBaseCommitShaAndBranch, hroot, hlog, hrem', hne, he], ?_⟩
    refine ⟨"Failed to find merge base between \"", "\" and \"", "\": " ++ e, ?_⟩
    simp [mergeBaseFailMsg, String.append_assoc]
  · intro m hm
    simp [getBaseCommitShaAndBranch, hroot, hlog, hrem', hne, hm]

/-- Witness for C6 at a concrete repository whose merge-base
computation throws. -/
theorem c6_merge_base_outcomes_witness :
    (getBaseCommitShaAndBranch gitEnvMB "/sb" sha40a "feature-x" none).1 =
      .error (mergeBaseFailMsg "feature-x" "main" "fatal: no merge base") := by
  have h := c6_merge_base_outcomes gitEnvMB "/sb" sha40a "feature-x" none "/repo" rfl
    sha40a rfl rfl (by decide)
  exact (h.1 "fatal: no merge base" rfl).1

/-- **C9 counterexample** — the caller supplies *both* base options
explicitly, but the base commit is the empty string: the truthiness
guard fails, `getBaseCommitShaAndBranch` *is* invoked, and the
resolved pair is not the supplied one — resolution is not skipped. -/
theorem c9_counterexample :
    jsTruthyStr (some "") = false ∧
    ((resolveBasePair gitEnvW "/sb" sha40a "feature-x" (some "") (some "develop")).2.contains
      GEv.getBaseCall) = true ∧
    (resolveBasePair gitEnvW "/sb" sha40a "feature-x" (some "") (some "develop")).1 =
      .ok (some sha40b, some "develop") :=
  ⟨rfl, rfl, rfl⟩

/-- **C9 (amended)** — if the caller supplies both base-commit and
base-branch as *non-empty* strings, resolution is skipped entirely:
the supplied pair is returned verbatim and no version-control query is
issued (`getBaseCommitShaAndBranch` is never entered). -/
theorem c9_explicit_base_skips_resolution (git : GitEnv)
    (sdir commitSha branch : String) (bc bb : String)
    (hbc : bc ≠ "") (hbb : bb ≠ "") :
    resolveBasePair git sdir commitSha branch (some bc) (some bb) =
      (.ok (some bc, some bb), []) := by
  simp [resolveBasePair, jsTruthyStr, bne_iff_ne, hbc, hbb]

/-- Witness for the amended C9. -/
theorem c9_explicit_base_skips_resolution_witness :
    resolveBasePair gitEnvW "/sb" sha40a "feature-x" (some sha40b) (some "develop") =
      (.ok (some sha40b, some "develop"), []) :=
  c9_explicit_base_skips_resolution gitEnvW "/sb" sha40a "feature-x" sha40b
    "develop" (by decide) (by decide)

/-- **C10** — `checkToken` accepts exactly the strings of 12 to 24
lowercase hex characters; any string containing an uppercase hex digit
is rejected; and the CLI driver turns a supplied rejected token into
the fatal invalid-project-token error with an empty trace — before any
version-control query or upload work begins. -/
theorem c10_check_token :
    (∀ t : String, checkToken t = true ↔
      (12 ≤ t.length ∧ t.length ≤ 24 ∧
        ∀ c ∈ t.data, ('0' ≤ c ∧ c ≤ '9') ∨ ('a' ≤ c ∧ c ≤ 'f'))) ∧
    (∀ (t : String) (c : Char), c ∈ t.data → 'A' ≤ c → c ≤ 'F' →
      checkToken t = false) ∧
    (∀ (storybookDir : String) (options : VizdiffOptions) (cli : CliEnv)
        (git : GitEnv) (uenv : UploadEnv) (t : String),
      options.token = some t → t ≠ "" → checkToken t = false →
      vizdiffRun storybookDir options cli git uenv = (.error invalidTokenMsg, [])) := by
  have hiff : ∀ t : String, checkToken t = true ↔
      (12 ≤ t.length ∧ t.length ≤ 24 ∧
        ∀ c ∈ t.data, ('0' ≤ c ∧ c ≤ '9') ∨ ('a' ≤ c ∧ c ≤ 'f')) := by
    intro t
    simp [checkToken, isLowerHexDigit, List.all_eq_true, and_assoc]
  refine ⟨hiff, ?_, ?_⟩
  · intro t c hc hA hF
    cases h : checkToken t with
    | false => rfl
    | true =>
      rcases ((hiff t).mp h).2.2 c hc with ⟨_, h9⟩ | ⟨ha, _⟩
      · exact absurd (le_trans hA h9) (by decide)
      · exact absurd (le_trans ha hF) (by decide)
  · intro sdir options cli git uenv t ht hne hbad
    simp [vizdiffRun, getToken, ht, hne, hbad]

/-- Witness for C10: a lowercase token accepted, an uppercase one
rejected, and the CLI run stopped fatally with no work done. -/
theorem c10_check_token_witness :
    checkToken "abcdef012345" = true ∧
    checkToken "ABCDEF012345" = false ∧
    vizdiffRun "/sb" optsBadTokenW cliW gitEnvW envOkW =
      (.error invalidTokenMsg, []) :=
  ⟨(c10_check_token.1 "abcdef012345").mpr (by decide),
   c10_check_token.2.1 "ABCDEF012345" 'A' (by decide) (by decide) (by decide),
   c10_check_token.2.2 "/sb" optsBadTokenW cliW gitEnvW envOkW "ABCDEF012345"
     rfl (by decide) (by decide)⟩

end Vizdiff

